import Mathlib

/-
Verification development for the document-sorting OCR pipeline.

The pipeline classifies scanned documents into keyword-based categories,
extracts checksum-validated Turkish identifiers (TC, 11 digits; VKN, 10
digits) from OCR text, retries OCR over rotations with one upscale
escalation, and places each file into a category folder under a
collision-free name.  The definitions below are shallow embeddings of the
Python sources under src/ (src/core/validators.py, classifiers.py,
config.py, document_processor.py, file_operations.py, processor.py and the
legacy src/ocr_processor.py); the external OCR, image-decoding and
normalization collaborators are modelled as explicit parameters.  Text is
modelled at the ASCII level for digit and word-character classes.
-/

/-- Text model: a Python str as its list of characters. -/
abbrev Str := List Char

/-- Character list of a Lean string literal. -/
def str (s : String) : Str := s.data

/-- Numeric value of a decimal digit character, as Python int(c). -/
def charToDigit (c : Char) : Nat := c.toNat - 48

/-- Python list slice l[start:stop:step] for a positive step: the elements
at indices start, start+step, ... below stop. -/
def pySlice (l : List Nat) (start stop step : Nat) : List Nat :=
  ((List.range l.length).filter
    (fun i => decide (start ≤ i ∧ i < stop ∧ (i - start) % step = 0))).map
    (fun i => l.getD i 0)

/-- Embedding of TCValidator.is_valid_tc (src/core/validators.py).  The
guard chain of early returns is written as a conjunction: the regex
fullmatch of eleven digits is the length-and-all-digits test, digits is
tc mapped through int, the slices digits[:10], digits[0:10:2] and
digits[1:9:2] are pySlice, and the Python % on the possibly negative
odd_sum * 7 - even_sum is Int mod. -/
def is_valid_tc (tc : Str) : Bool :=
  (decide (tc.length = 11) && tc.all Char.isDigit) &&
  (let digits : List Nat := tc.map charToDigit
   decide (¬ digits.getD 0 0 = 0) &&
   decide ((pySlice digits 0 10 1).sum % 10 = digits.getD 10 0) &&
   decide ((((pySlice digits 0 10 2).sum : Int) * 7 - ((pySlice digits 1 9 2).sum : Int)) % 10
      = (digits.getD 9 0 : Int)))

/-- The TC validity condition as the specification states it: exactly 11
decimal digits, first digit nonzero, the sum of the first ten digits mod 10
is digit 10, and the sum of the digits at positions 0,2,4,6,8 times 7 minus
the sum of the digits at positions 1,3,5,7, mod 10, is digit 9. -/
def specValidTC (s : Str) : Prop :=
  s.length = 11 ∧ (∀ c ∈ s, c.isDigit = true) ∧
  ¬ (s.map charToDigit).getD 0 0 = 0 ∧
  ((s.map charToDigit).getD 0 0 + (s.map charToDigit).getD 1 0 + (s.map charToDigit).getD 2 0 +
   (s.map charToDigit).getD 3 0 + (s.map charToDigit).getD 4 0 + (s.map charToDigit).getD 5 0 +
   (s.map charToDigit).getD 6 0 + (s.map charToDigit).getD 7 0 + (s.map charToDigit).getD 8 0 +
   (s.map charToDigit).getD 9 0) % 10 = (s.map charToDigit).getD 10 0 ∧
  ((((s.map charToDigit).getD 0 0 : Int) + (s.map charToDigit).getD 2 0 +
    (s.map charToDigit).getD 4 0 + (s.map charToDigit).getD 6 0 + (s.map charToDigit).getD 8 0) * 7
   - (((s.map charToDigit).getD 1 0 : Int) + (s.map charToDigit).getD 3 0 +
     (s.map charToDigit).getD 5 0 + (s.map charToDigit).getD 7 0)) % 10
   = ((s.map charToDigit).getD 9 0 : Int)

/-- Embedding of VKNValidator.is_valid_vkn (src/core/validators.py).
Python isdigit is the nonempty all-digits test; the transformed list and
the total accumulation loops over range(9) are written as maps over
List.range 9. -/
def is_valid_vkn (vkn : Str) : Bool :=
  ((!vkn.isEmpty) && vkn.all Char.isDigit && decide (vkn.length = 10)) &&
  (let digits : List Nat := vkn.map charToDigit
   let transformed : List Nat := (List.range 9).map (fun i =>
     if (digits.getD i 0 + (9 - i)) % 10 = 0 then 10
     else (digits.getD i 0 + (9 - i)) % 10)
   let total : Nat :=
     ((List.range 9).map (fun i => (transformed.getD i 0 * 2 ^ (9 - i)) % 9)).sum
   decide (digits.getD 9 0 = (10 - total % 10) % 10))

/-- The VKN validity condition as the specification states it: exactly 10
decimal digits, and with t i = (d i + (9 - i)) mod 10 replaced by 10 when
that value is 0, the total of (t i * 2 ^ (9 - i)) mod 9 over i = 0..8
satisfies d 9 = (10 - total mod 10) mod 10. -/
def specValidVKN (s : Str) : Prop :=
  s.length = 10 ∧ (∀ c ∈ s, c.isDigit = true) ∧
  (s.map charToDigit).getD 9 0 =
    (10 - (((List.range 9).map (fun i =>
      ((if ((s.map charToDigit).getD i 0 + (9 - i)) % 10 = 0 then 10
        else ((s.map charToDigit).getD i 0 + (9 - i)) % 10) * 2 ^ (9 - i)) % 9)).sum % 10)) % 10

/-- Python regex word character at the ASCII level: letter, digit or
underscore. -/
def isWordChar (c : Char) : Bool := c.isAlphanum || c = '_'

/-- Accumulator pass splitting a text into its maximal runs of word
characters; cur holds the current run reversed. -/
def wordsAux : Str → Str → List Str
  | cur, [] => if cur.isEmpty then [] else [cur.reverse]
  | cur, c :: rest =>
    if isWordChar c then wordsAux (c :: cur) rest
    else if cur.isEmpty then wordsAux [] rest
    else cur.reverse :: wordsAux [] rest

/-- Maximal word-character runs of a text, in order of appearance. -/
def wordsOf (t : Str) : List Str := wordsAux [] t

/-- Matches of the Python regex of n word-bounded digits via re.findall:
the maximal word-character runs consisting of exactly n digits, in
left-to-right order. -/
def findallBoundedDigits (n : Nat) (t : Str) : List Str :=
  (wordsOf t).filter (fun w => decide (w.length = n) && w.all Char.isDigit)

/-- Embedding of TCValidator.extract_tc_from_text (src/core/validators.py):
the first word-bounded 11-digit match passing is_valid_tc, None otherwise. -/
def extract_tc_from_text (t : Str) : Option Str :=
  (findallBoundedDigits 11 t).find? is_valid_tc

/-- Embedding of VKNValidator.extract_vkn_from_text: the first word-bounded
10-digit match passing is_valid_vkn, None otherwise. -/
def extract_vkn_from_text (t : Str) : Option Str :=
  (findallBoundedDigits 10 t).find? is_valid_vkn

/-- Embedding of DocumentIdentifier.extract_identifier: the TC match when
one exists, else the VKN match, else None. -/
def extract_identifier (t : Str) : Option Str :=
  match extract_tc_from_text t with
  | some tc => some tc
  | none => extract_vkn_from_text t

/-- Identifier extraction as the specification states it: the first
word-bounded run of exactly 11 digits that passes the TC checksum when one
exists, otherwise the first word-bounded run of exactly 10 digits that
passes the VKN checksum, otherwise nothing. -/
def specExtractIdentifier (t : Str) : Option Str :=
  match (wordsOf t).find?
      (fun w => decide (w.length = 11) && w.all Char.isDigit && is_valid_tc w) with
  | some w => some w
  | none =>
    (wordsOf t).find?
      (fun w => decide (w.length = 10) && w.all Char.isDigit && is_valid_vkn w)

/-- Python substring containment needle in hay: needle is a prefix of some
suffix of hay. -/
def substr (needle : Str) : Str → Bool
  | [] => needle.isPrefixOf []
  | c :: rest => needle.isPrefixOf (c :: rest) || substr needle rest

/-- Python str.lower at the ASCII level: characterwise lowercasing. -/
def lowerStr (t : Str) : Str := t.map Char.toLower

/-- Keyword scan shared by both classifiers: walk the ordered category
table and return the first category one of whose keywords occurs in the
text, defaulting to others. -/
def classifyList : List (Str × List Str) → Str → Str
  | [], _ => str ("others")
  | (cat, kws) :: rest, t =>
    if kws.any (fun k => substr k t) then cat else classifyList rest t

/-- The ordered CATEGORIES table of src/core/config.py. -/
def CATEGORIES : List (Str × List Str) :=
  [ (str ("trade_registry_gazette"),
      [str ("türkiye ticaret sicili gazetesi"), str ("ticaret sicili müdürlüğü")]),
    (str ("digital_abf_commitment"),
      [str ("dijital abf taahhütnamesi"), str ("taahhütte bulunan"),
       str ("tarafınızla akdetmiş olduğum"), str ("sms ile"), str ("sms")]),
    (str ("kvkk_explicit_consent"),
      [str ("6698 sayılı"), str ("kişisel verilerin korunması kanunu"), str ("açık rıza metni"),
       str ("veri sorumlusu"), str ("aydınlatma metni"), str ("rıza gösteriyorum")]),
    (str ("factoring_agreement"),
      [str ("faktoring hizmet sözleşmesi"), str ("alacakların devri"), str ("temlik"),
       str ("finansman hizmeti"), str ("faktör şirketi")]),
    (str ("power_of_attorney"),
      [str ("vekaletname"), str ("vekil tayin ettim"), str ("adıma işlem yapmaya yetkilidir"),
       str ("noter tasdikli vekaletname"), str ("işbu vekaletname ile")]),
    (str ("signature_declaration"),
      [str ("imza beyannamesi"), str ("imzaya yetkili kişi"), str ("ticaret sicil müdürlüğü"),
       str ("imza örneği")]),
    (str ("abf"),
      [str ("abf formu"), str ("abf başvuru"), str ("abf numarası"), str ("abf"),
       str ("alacak bildirimi formu")]),
    (str ("ids"),
      [str ("t.c. kimlik no"), str ("t.c. kimlik no."), str ("nüfus cüzdanı"), str ("kimlik kartı"),
       str ("türkiye cumhuriyeti"), str ("uyruğu"), str ("gender"), str ("nationality"),
       str ("identity card")]),
    (str ("invoices"),
      [str ("e-fatura"), str ("ettn"), str ("fatura no"), str ("fatura tarihi"), str ("fatura tipi"),
       str ("mal hizmet toplam tutarı"), str ("fatura"), str ("invoice"), str ("ınvoıce"),
       str ("taşıma irsaliye"), str ("taşıma ırsaliye"), str ("müşteri v.d."),
       str ("müşteri v.d.no."), str ("irsaliye")]),
    (str ("cheque"),
      [str ("çek"), str ("keşideci"), str ("keşide yeri"), str ("çek seri no"), str ("çak"),
       str ("çak no"), str ("tacir"), str ("basım tarihi"), str ("keşide"), str ("bu çek"),
       str ("çek karşılığında"), str ("bu çek karşılığında"), str ("findeks"), str ("çok seri no"),
       str ("çok sori no"), str ("mersis no"), str ("morsis no")]),
    (str ("promissory_note"),
      [str ("senet"), str ("emre yazılı senet"), str ("borçlunun adı"), str ("ödenecek meblağ"),
       str ("vade tarihi"), str ("düzenlenme yeri")]),
    (str ("contracts"),
      [str ("taraflar arasında akdedilmiştir"), str ("işbu sözleşme"), str ("sözleşmenin konusu"),
       str ("hak ve yükümlülükler"), str ("tarafların mutabakatı"), str ("kefalet"),
       str ("faktoring sözleşmesi"), str ("sözleşmesi")]),
    (str ("residence_certificate"),
      [str ("yerleşim yeri belgesi"), str ("yerleşim yeri"), str ("ikametgah belgesi"),
       str ("adres kayıt sistemi"), str ("nüfus ve vatandaşlık işleri genel müdürlüğü")]),
    (str ("driver_license"),
      [str ("sürücü belgesi"), str ("driving licence"), str ("veriliş tarihi"), str ("sınıf"),
       str ("ehliyet no")]),
    (str ("population_register"),
      [str ("nüfus kayıt örneği"), str ("nüfus kayıt"), str ("nüfus kayit örneği"),
       str ("aile sıra no"), str ("cilt no"), str ("mahallesi"), str ("nüfus müdürlüğü")]),
    (str ("tax_plate"),
      [str ("vergi levhası"), str ("vergi kimlik no"), str ("vergı levhası"), str ("faaliyet kodu"),
       str ("gelir idaresi"), str ("beyan edilen matrah"), str ("vergi levhası"),
       str ("gelir idaresi"), str ("levhası"), str ("beyan olunan matrah"), str ("matrah"),
       str ("vergi türü"), str ("vergi kimlik"), str ("tahakkuk eden vergi"),
       str ("intvd.gib.gov.tr")]),
    (str ("offset_and_payment_order"),
      [str ("ödeme emri"), str ("mahsup talebi"), str ("vergi dairesi müdürlüğü"),
       str ("6183 sayılı kanun")]),
    (str ("unprocessed_return_payment_order"),
      [str ("işlenmemiş iade"), str ("ödenmemiş ödeme emri"), str ("vergi iadesi talebi"),
       str ("beyanname bilgileri")]),
    (str ("activity_certificate"),
      [str ("faaliyet sicili"), str ("ticaret sicil tasdiknamesi"), str ("ticaret sicil"),
       str ("faaliyet belgesi"), str ("commercial activity"), str ("nace kodu"), str ("nace code"),
       str ("faaliyet bilgileri"), str ("faaliyet kodu"), str ("sicil kayıt sureti"),
       str ("ticaret"), str ("sicil kayıt"), str ("sicil")]),
    (str ("independent_audit_certificate"),
      [str ("bağımsız denetime tabi"), str ("denetime tabi"), str ("bağımsız denetim yükümlülüğü"),
       str ("bağımsız denetim"), str ("smmm"), str ("ymm"), str ("mali müşavirlerce")]) ]

/-- Embedding of DocumentClassifier.classify_text (src/core/classifiers.py)
over the default CATEGORIES table: lowercase the text, then return the
first category with a keyword occurring in it, else others. -/
def classify_text (t : Str) : Str := classifyList CATEGORIES (lowerStr t)

/-- The module-level categories table of the legacy src/ocr_processor.py,
transcribed in full. -/
def legacyCategories : List (Str × List Str) :=
  [ (str ("trade_registry_gazette"),
      [str ("türkiye ticaret sicili gazetesi"), str ("ticaret sicili müdürlüğü")]),
    (str ("digital_abf_commitment"),
      [str ("dijital abf taahhütnamesi"), str ("taahhütte bulunan"),
       str ("tarafınızla akdetmiş olduğum"), str ("sms ile"), str ("sms")]),
    (str ("kvkk_explicit_consent"),
      [str ("6698 sayılı"), str ("kişisel verilerin korunması kanunu"), str ("açık rıza metni"),
       str ("veri sorumlusu"), str ("aydınlatma metni"), str ("rıza gösteriyorum")]),
    (str ("factoring_agreement"),
      [str ("faktoring hizmet sözleşmesi"), str ("alacakların devri"), str ("temlik"),
       str ("finansman hizmeti"), str ("faktör şirketi")]),
    (str ("power_of_attorney"),
      [str ("vekaletname"), str ("vekil tayin ettim"), str ("adıma işlem yapmaya yetkilidir"),
       str ("noter tasdikli vekaletname"), str ("işbu vekaletname ile")]),
    (str ("signature_declaration"),
      [str ("imza beyannamesi"), str ("imzaya yetkili kişi"), str ("ticaret sicil müdürlüğü"),
       str ("imza örneği")]),
    (str ("abf"),
      [str ("abf formu"), str ("abf başvuru"), str ("abf numarası"), str ("abf"),
       str ("alacak bildirimi formu")]),
    (str ("ids"),
      [str ("t.c. kimlik no"), str ("t.c. kimlik no."), str ("nüfus cüzdanı"), str ("kimlik kartı"),
       str ("türkiye cumhuriyeti"), str ("uyruğu"), str ("gender"), str ("nationality"),
       str ("identity card")]),
    (str ("invoices"),
      [str ("e-fatura"), str ("ettn"), str ("fatura no"), str ("fatura tarihi"), str ("fatura tipi"),
       str ("mal hizmet toplam tutarı"), str ("fatura"), str ("invoice"), str ("ınvoıce"),
       str ("taşıma irsaliye"), str ("taşıma ırsaliye"), str ("müşteri v.d."),
       str ("müşteri v.d.no."), str ("irsaliye")]),
    (str ("cheque"),
      [str ("çek"), str ("keşideci"), str ("keşide yeri"), str ("çek seri no"), str ("çak"),
       str ("çak no"), str ("tacir"), str ("basım tarihi"), str ("keşide"), str ("bu çek"),
       str ("çek karşılığında"), str ("bu çek karşılığında"), str ("findeks"), str ("çok seri no"),
       str ("çok sori no"), str ("mersis no"), str ("morsis no")]),
    (str ("promissory_note"),
      [str ("senet"), str ("emre yazılı senet"), str ("borçlunun adı"), str ("ödenecek meblağ"),
       str ("vade tarihi"), str ("düzenlenme yeri")]),
    (str ("contracts"),
      [str ("taraflar arasında akdedilmiştir"), str ("işbu sözleşme"), str ("sözleşmenin konusu"),
       str ("hak ve yükümlülükler"), str ("tarafların mutabakatı"), str ("kefalet"),
       str ("faktoring sözleşmesi"), str ("sözleşmesi")]),
    (str ("residence_certificate"),
      [str ("yerleşim yeri belgesi"), str ("yerleşim yeri"), str ("ikametgah belgesi"),
       str ("adres kayıt sistemi"), str ("nüfus ve vatandaşlık işleri genel müdürlüğü")]),
    (str ("driver_license"),
      [str ("sürücü belgesi"), str ("driving licence"), str ("veriliş tarihi"), str ("sınıf"),
       str ("ehliyet no")]),
    (str ("population_register"),
      [str ("nüfus kayıt örneği"), str ("nüfus kayıt"), str ("nüfus kayit örneği"),
       str ("aile sıra no"), str ("cilt no"), str ("mahallesi"), str ("nüfus müdürlüğü")]),
    (str ("tax_plate"),
      [str ("vergi levhası"), str ("vergi kimlik no"), str ("vergı levhası"), str ("faaliyet kodu"),
       str ("gelir idaresi"), str ("beyan edilen matrah")]),
    (str ("offset_and_payment_order"),
      [str ("ödeme emri"), str ("mahsup talebi"), str ("vergi dairesi müdürlüğü"),
       str ("6183 sayılı kanun")]),
    (str ("unprocessed_return_payment_order"),
      [str ("işlenmemiş iade"), str ("ödenmemiş ödeme emri"), str ("vergi iadesi talebi"),
       str ("beyanname bilgileri")]),
    (str ("vergi_levhası"),
      [str ("vergi levhası"), str ("gelir idaresi"), str ("levhası"), str ("beyan olunan matrah"),
       str ("matrah"), str ("vergi türü"), str ("vergi kimlik"), str ("tahakkuk eden vergi"),
       str ("intvd.gib.gov.tr")]),
    (str ("faaliyet_belgesi"),
      [str ("faaliyet sicili"), str ("ticaret sicil tasdiknamesi"), str ("ticaret sicil"),
       str ("faaliyet belgesi"), str ("commercial activity"), str ("nace kodu"), str ("nace code"),
       str ("faaliyet bilgileri"), str ("faaliyet kodu"), str ("sicil kayıt sureti"),
       str ("ticaret"), str ("sicil kayıt"), str ("sicil")]),
    (str ("bagımsız_denetim_belgesi"),
      [str ("bağımsız denetime tabi"), str ("denetime tabi"), str ("bağımsız denetim yükümlülüğü"),
       str ("bağımsız denetim"), str ("smmm"), str ("ymm"), str ("mali müşavirlerce")]) ]

/-- Embedding of the legacy classify_text (src/ocr_processor.py): same scan
over the legacy table, without lowercasing (its callers pass text already
lowercased by the OCR wrapper). -/
def legacy_classify_text (t : Str) : Str := classifyList legacyCategories t

/-- Test that no keyword of the table occurs in the text. -/
def keywordFree (cats : List (Str × List Str)) (t : Str) : Bool :=
  cats.all (fun ck => ck.2.all (fun k => !(substr k t)))

/-- Shared prefix of the two classification tables: the first fifteen
categories, trade_registry_gazette through population_register. -/
def sharedPrefix : List (Str × List Str) := CATEGORIES.take 15

/-- Decimal digit character of a value below ten. -/
def digitChar (n : Nat) : Char :=
  match n with
  | 0 => '0' | 1 => '1' | 2 => '2' | 3 => '3' | 4 => '4'
  | 5 => '5' | 6 => '6' | 7 => '7' | 8 => '8' | _ => '9'

/-- Decimal digits of n, most significant first, with structural fuel so
that the definition evaluates by reduction; the fuel is sufficient
whenever n is at most the fuel. -/
def natReprAux : Nat → Nat → Str
  | 0, n => [digitChar n]
  | fuel + 1, n =>
    if n < 10 then [digitChar n]
    else natReprAux fuel (n / 10) ++ [digitChar (n % 10)]

/-- Decimal representation of a natural number, as Python str(n) inside an
f-string. -/
def natRepr (n : Nat) : Str := natReprAux n n

/-- Decimal parse, a left inverse of natRepr. -/
def parseNat (l : Str) : Nat := l.foldl (fun acc c => acc * 10 + charToDigit c) 0

/-- Check-then-suffix probing shared by generate_unique_filename and
move_file_to_category: starting from candidate index c, walk the candidate
sequence and return the first name not present in existing, probing at
most fuel candidates. -/
def firstFreeAux (existing : List Str) (cand : Nat → Str) : Nat → Nat → Str
  | c, 0 => cand c
  | c, fuel + 1 =>
    if cand c ∈ existing then firstFreeAux existing cand (c + 1) fuel else cand c

/-- Candidate names probed by generate_unique_filename: code_date.ext,
then code_date(1).ext, code_date(2).ext, and so on. -/
def genCand (base ext : Str) : Nat → Str
  | 0 => base ++ ('.' :: ext)
  | k + 1 => base ++ ('(' :: (natRepr (k + 1) ++ (')' :: '.' :: ext)))

/-- Embedding of FileOperations.generate_unique_filename
(src/core/file_operations.py): base_name is code_date with the current
date string taken as a parameter, and the while loop over
os.path.exists probes the candidate sequence against the destination
folder, modelled by its list of file names; the loop always finds a free
name within existing.length + 1 probes, which the fuel makes explicit. -/
def generate_unique_filename (code dateStr ext : Str) (existing : List Str) : Str :=
  firstFreeAux existing (genCand (code ++ ('_' :: dateStr)) ext) 0 (existing.length + 1)

/-- Index at which Python os.path.splitext splits a bare file name: the
last dot having some non-dot character before it; none when the name has
no extension. -/
def splitextIdx (name : Str) : Option Nat :=
  ((List.range name.length).filter (fun i =>
    decide (name.getD i ' ' = '.') &&
    (List.range i).any (fun j => !(decide (name.getD j ' ' = '.'))))).getLast?

/-- Python os.path.splitext for a bare file name: root and extension, the
extension beginning at the split dot and empty when there is none. -/
def splitext (name : Str) : Str × Str :=
  match splitextIdx name with
  | none => (name, [])
  | some i => (name.take i, name.drop i)

/-- Candidate destination names probed by move_file_to_category: the
requested name itself, then root(1)ext, root(2)ext, ... with root and ext
from os.path.splitext of the requested name. -/
def moveCand (name : Str) : Nat → Str
  | 0 => name
  | k + 1 => (splitext name).1 ++ ('(' :: (natRepr (k + 1) ++ (')' :: (splitext name).2)))

/-- Folder tree state: for each category name, the list of file names in
its folder under uploads. -/
structure FolderState where
  contents : Str → List Str

/-- Embedding of FileOperations.move_file_to_category
(src/core/file_operations.py): choose the destination name by rechecking
os.path.exists and applying the (n) suffix scheme while there is a
collision, then move the source there; the result is the chosen
destination name together with the updated folder state. -/
def move_file_to_category (st : FolderState) (category : Str) (newFilename : Str) :
    Str × FolderState :=
  let existing := st.contents category
  let dest := firstFreeAux existing (moveCand newFilename) 0 (existing.length + 1)
  (dest, ⟨fun c => if c = category then dest :: st.contents c else st.contents c⟩)

/-- External collaborators of one orchestration pass, as functions: image
decoding, rotation, OCR text extraction and upscaling, each returning none
when the underlying library call raises, plus the current date string used
for file naming.  Decoded images are opaque handles. -/
structure Env where
  loadImage : Str → Option Nat
  rotateImage : Nat → Nat → Option Nat
  extractTextFromImage : Nat → Option Str
  upscaleImage : Nat → Option Nat
  today : Str

/-- Python truthiness of text.strip(): some character is not whitespace. -/
def hasContent (t : Str) : Bool := t.any (fun c => !c.isWhitespace)

/-- Python os.path.basename: the part after the last slash. -/
def basename (p : Str) : Str :=
  p.foldl (fun acc c => if c = '/' then [] else acc ++ [c]) []

/-- One angle of DocumentProcessor._try_ocr_with_rotations
(src/core/document_processor.py): rotate, run OCR, and if the text has
content extract the identifier and classify; some result only when
classification is not others, none when a step raises or yields nothing,
in which case the loop continues. -/
def tryAngle (env : Env) (img angle : Nat) : Option (Str × Option Str) :=
  match env.rotateImage img angle with
  | none => none
  | some rotated =>
    match env.extractTextFromImage rotated with
    | none => none
    | some text =>
      if hasContent text then
        if ¬ classify_text text = str ("others") then
          some (classify_text text, extract_identifier text)
        else none
      else none

/-- The angle loop of _try_ocr_with_rotations over a list of angles,
falling through to (others, none) when every angle fails. -/
def tryRotAux (env : Env) (img : Nat) : List Nat → Str × Option Str
  | [] => (str ("others"), none)
  | angle :: rest =>
    match tryAngle env img angle with
    | some result => result
    | none => tryRotAux env img rest

/-- Embedding of DocumentProcessor._try_ocr_with_rotations: the loop over
the angles 0, 90, 180 and 270. -/
def tryOcrWithRotations (env : Env) (img : Nat) : Str × Option Str :=
  tryRotAux env img [0, 90, 180, 270]

/-- Embedding of DocumentProcessor._try_ocr_with_upscaling: upscale once
and repeat the rotation loop; (others, none) when upscaling raises. -/
def tryOcrWithUpscaling (env : Env) (img : Nat) : Str × Option Str :=
  match env.upscaleImage img with
  | none => (str ("others"), none)
  | some upscaled => tryOcrWithRotations env upscaled

/-- Embedding of DocumentProcessor.process_document with return_id True:
load the image, run the rotation pass, on others run the single upscale
escalation; any exception escaping the body, in particular an image decode
failure, is caught and turned into the pair (others, none). -/
def processDocument (env : Env) (filePath : Str) : Str × Option Str :=
  match env.loadImage filePath with
  | none => (str ("others"), none)
  | some img =>
    if (tryOcrWithRotations env img).1 = str ("others") then tryOcrWithUpscaling env img
    else tryOcrWithRotations env img

/-- Embedding of DocumentProcessor.process_single_file: classify the file;
when an identifier was detected the destination name is generated from it,
else the base name of the source is kept; then the file is moved into the
category folder.  Returns the (category, original file name) pair together
with the new folder state. -/
def processSingleFile (env : Env) (st : FolderState) (filePath : Str) :
    (Str × Str) × FolderState :=
  let fileName := basename filePath
  let fileExt := (splitext fileName).2
  let result := processDocument env filePath
  let newFilename :=
    match result.2 with
    | some detectedId =>
      generate_unique_filename detectedId env.today (fileExt.drop 1) (st.contents result.1)
    | none => fileName
  let moved := move_file_to_category st result.1 newFilename
  ((result.1, fileName), moved.2)

/-- Modelled from the spec: the mapping of one character under canonical
Unicode (NFKC) normalization, restricted to the characters appearing in
this development: the compatibility ligature at code point FB01 decomposes
to the two letters fi, every other character used here is already in
normal form and left unchanged. -/
def nfkcChar (c : Char) : Str := if c = 'ﬁ' then str ("fi") else [c]

/-- Modelled from the spec: the canonical Unicode (NFKC) normalization
performed by the external unicodedata library inside normalize_filename
(src/core/utils.py), applied characterwise. -/
def nfkc : Str → Str
  | [] => []
  | c :: rest => nfkcChar c ++ nfkc rest

/-- Embedding of process_single_file (src/core/processor.py): the batch
coordinator normalizes the base name of the file and then delegates to
DocumentProcessor.process_single_file; the normalized name is computed but
not passed on, exactly as in the source. -/
def processorProcessSingleFile (env : Env) (st : FolderState) (filePath : Str) :
    (Str × Str) × FolderState :=
  let fileName := nfkc (basename filePath)
  processSingleFile env st filePath

/-- Embedding of process_files_in_directory (src/core/processor.py): fold
over the listed files, processing each in turn and collecting one
(file name, category) outcome per file. -/
def processFilesInDirectory (env : Env) (st : FolderState) :
    List Str → List (Str × Str) × FolderState
  | [] => ([], st)
  | f :: rest =>
    let r := processorProcessSingleFile env st f
    let next := processFilesInDirectory env r.2 rest
    ((r.1.2, r.1.1) :: next.1, next.2)

/-- Environment whose OCR always reads a text containing the valid TC
10000000146 but no category keyword; decode, rotation and upscaling all
succeed. -/
def cexEnvC1 : Env :=
  ⟨fun _ => some 0, fun img _ => some img, fun _ => some (str ("10000000146")),
   fun img => some img, str ("01012026")⟩

/-- Environment whose image decoding always raises. -/
def cexEnvC2 : Env :=
  ⟨fun _ => none, fun img _ => some img, fun _ => some (str ("fatura no")),
   fun img => some img, str ("01012026")⟩

/-- Environment whose OCR always raises, so every pass ends at others with
no identifier. -/
def cexEnvC10 : Env :=
  ⟨fun _ => some 0, fun img _ => some img, fun _ => none,
   fun img => some img, str ("01012026")⟩

/-- The empty uploads tree. -/
def emptyFolders : FolderState := ⟨fun _ => []⟩

/-- A folder tree holding one invoice file, used to exercise the collision
suffixing. -/
def demoFolders : FolderState :=
  ⟨fun c => if c = str ("invoices") then [str ("a.txt")] else []⟩

lemma pySlice_first10 (l : List Nat) (hl : l.length = 11) :
    pySlice l 0 10 1 =
      [l.getD 0 0, l.getD 1 0, l.getD 2 0, l.getD 3 0, l.getD 4 0,
       l.getD 5 0, l.getD 6 0, l.getD 7 0, l.getD 8 0, l.getD 9 0] := by
  unfold pySlice
  rw [hl]
  rfl

lemma pySlice_even (l : List Nat) (hl : l.length = 11) :
    pySlice l 0 10 2 =
      [l.getD 0 0, l.getD 2 0, l.getD 4 0, l.getD 6 0, l.getD 8 0] := by
  unfold pySlice
  rw [hl]
  rfl

lemma pySlice_odd (l : List Nat) (hl : l.length = 11) :
    pySlice l 1 9 2 =
      [l.getD 1 0, l.getD 3 0, l.getD 5 0, l.getD 7 0] := by
  unfold pySlice
  rw [hl]
  rfl

/-- C4: is_valid_tc accepts exactly the strings of eleven decimal digits
with nonzero leading digit satisfying the two checksum equations of the
specification; in particular it accepts 10000000146 and rejects
10000000147. -/
theorem C4_is_valid_tc_matches_spec :
    (∀ s : Str, is_valid_tc s = true ↔ specValidTC s) ∧
    is_valid_tc (str ("10000000146")) = true ∧
    is_valid_tc (str ("10000000147")) = false := by
  refine ⟨fun s => ?_, by decide, by decide⟩
  by_cases hlen : s.length = 11
  · have hml : (s.map charToDigit).length = 11 := by simpa using hlen
    simp only [is_valid_tc, specValidTC, Bool.and_eq_true, decide_eq_true_eq,
      List.all_eq_true, pySlice_first10 _ hml, pySlice_even _ hml, pySlice_odd _ hml,
      List.sum_cons, List.sum_nil, and_assoc]
    constructor
    · rintro ⟨h1, h2, h3, h4, h5⟩
      exact ⟨h1, h2, h3, by omega, by omega⟩
    · rintro ⟨h1, h2, h3, h4, h5⟩
      exact ⟨h1, h2, h3, by omega, by omega⟩
  · have hfalse : is_valid_tc s = false := by
      simp [is_valid_tc, hlen]
    rw [hfalse]
    simp [specValidTC, hlen]

lemma getD_map_range (f : Nat → Nat) (i : Nat) (hi : i < 9) :
    ((List.range 9).map f).getD i 0 = f i := by
  have h : i < ((List.range 9).map f).length := by simpa using hi
  rw [List.getD_eq_getElem _ _ h, List.getElem_map, List.getElem_range]

/-- C5: is_valid_vkn accepts exactly the strings of ten decimal digits
satisfying the transform-and-weight checksum of the specification; in
particular it accepts 1111111115 and rejects 1111111110. -/
theorem C5_is_valid_vkn_matches_spec :
    (∀ s : Str, is_valid_vkn s = true ↔ specValidVKN s) ∧
    is_valid_vkn (str ("1111111115")) = true ∧
    is_valid_vkn (str ("1111111110")) = false := by
  refine ⟨fun s => ?_, by decide, by decide⟩
  by_cases hlen : s.length = 10
  · have hne : s.isEmpty = false := by
      cases s
      · simp at hlen
      · rfl
    have htot : ((List.range 9).map (fun i =>
        ((((List.range 9).map (fun j =>
          if ((s.map charToDigit).getD j 0 + (9 - j)) % 10 = 0 then 10
          else ((s.map charToDigit).getD j 0 + (9 - j)) % 10)).getD i 0) * 2 ^ (9 - i)) % 9)).sum
        = ((List.range 9).map (fun i =>
        ((if ((s.map charToDigit).getD i 0 + (9 - i)) % 10 = 0 then 10
          else ((s.map charToDigit).getD i 0 + (9 - i)) % 10) * 2 ^ (9 - i)) % 9)).sum := by
      refine congrArg List.sum (List.map_congr_left ?_)
      intro i hi
      rw [getD_map_range _ i (by simpa using hi)]
    simp only [is_valid_vkn, specValidVKN, Bool.and_eq_true, decide_eq_true_eq,
      List.all_eq_true, hne, Bool.not_false, htot, and_assoc, true_and]
    tauto
  · have hfalse : is_valid_vkn s = false := by
      simp [is_valid_vkn, hlen]
    rw [hfalse]
    simp [specValidVKN, hlen]

lemma find?_filter_eq {α : Type} (l : List α) (q p : α → Bool) :
    (l.filter q).find? p = l.find? (fun x => q x && p x) := by
  induction l with
  | nil => rfl
  | cons a l ih =>
    by_cases hq : q a = true
    · by_cases hp : p a = true
      · simp [List.filter_cons, hq, hp]
      · simp [List.filter_cons, hq, hp, ih]
    · simp [List.filter_cons, hq, ih]

/-- C6: extract_identifier returns the first word-bounded valid TC, else
the first word-bounded valid VKN, else nothing, exactly as specified; a
valid TC wins even when a valid VKN occurs earlier in the text. -/
theorem C6_extract_identifier_matches_spec :
    (∀ t : Str, extract_identifier t = specExtractIdentifier t) ∧
    extract_identifier (str ("vkn 1111111115 tc 10000000146")) = some (str ("10000000146")) := by
  refine ⟨fun t => ?_, by decide⟩
  unfold extract_identifier specExtractIdentifier extract_tc_from_text extract_vkn_from_text
    findallBoundedDigits
  rw [find?_filter_eq, find?_filter_eq]

lemma classifyList_eq_others_of_free (cats : List (Str × List Str)) (t : Str)
    (h : keywordFree cats t = true) : classifyList cats t = str ("others") := by
  induction cats with
  | nil => rfl
  | cons ck rest ih =>
    obtain ⟨cat, kws⟩ := ck
    rw [keywordFree, List.all_cons, Bool.and_eq_true] at h
    have hany : kws.any (fun k => substr k t) = false := by
      rw [Bool.eq_false_iff]
      intro hsome
      obtain ⟨k, hk, hsub⟩ := List.any_eq_true.mp hsome
      have := List.all_eq_true.mp h.1 k hk
      simp [hsub] at this
    rw [classifyList, if_neg (by simp [hany]), ih h.2]

lemma classifyList_append_of_free (cats rest : List (Str × List Str)) (t : Str)
    (h : keywordFree cats t = true) :
    classifyList (cats ++ rest) t = classifyList rest t := by
  induction cats with
  | nil => rfl
  | cons ck cs ih =>
    obtain ⟨cat, kws⟩ := ck
    rw [keywordFree, List.all_cons, Bool.and_eq_true] at h
    have hany : kws.any (fun k => substr k t) = false := by
      rw [Bool.eq_false_iff]
      intro hsome
      obtain ⟨k, hk, hsub⟩ := List.any_eq_true.mp hsome
      have := List.all_eq_true.mp h.1 k hk
      simp [hsub] at this
    rw [List.cons_append, classifyList, if_neg (by simp [hany]), ih h.2]

lemma classifyList_append_of_ne (cats rest : List (Str × List Str)) (t : Str)
    (h : classifyList cats t ≠ str ("others")) :
    classifyList (cats ++ rest) t = classifyList cats t := by
  induction cats with
  | nil => exact absurd rfl h
  | cons ck cs ih =>
    obtain ⟨cat, kws⟩ := ck
    by_cases hany : kws.any (fun k => substr k t) = true
    · rw [List.cons_append, classifyList, if_pos hany, classifyList, if_pos hany]
    · rw [classifyList, if_neg hany] at h
      rw [List.cons_append, classifyList, if_neg hany, classifyList, if_neg hany, ih h]

lemma classifyList_cons_of_any (cat : Str) (kws : List Str)
    (rest : List (Str × List Str)) (t : Str)
    (h : kws.any (fun k => substr k t) = true) :
    classifyList ((cat, kws) :: rest) t = cat := by
  rw [classifyList, if_pos h]

/-- C3 as stated fails on the code: the text sms fatura no contains the
substring fatura no yet classifies as digital_abf_commitment, because the
sms keyword of the earlier digital_abf_commitment category also matches. -/
theorem C3_counterexample :
    substr (str ("fatura no")) (lowerStr (str ("sms fatura no"))) = true ∧
    classify_text (str ("sms fatura no")) = str ("digital_abf_commitment") ∧
    ¬ classify_text (str ("sms fatura no")) = str ("invoices") := by
  exact ⟨by decide, by decide, by decide⟩

/-- C3 amended: classification is a pure function, so re-running it yields
the same category; a text that contains fatura no after lowercasing and no
keyword of the eight categories that precede invoices in the taxonomy
classifies as invoices; a text containing no configured keyword at all
classifies as others. -/
theorem C3_amended_classify :
    (∀ t : Str, classify_text t = classify_text t) ∧
    (∀ t : Str, substr (str ("fatura no")) (lowerStr t) = true →
      keywordFree (CATEGORIES.take 8) (lowerStr t) = true →
      classify_text t = str ("invoices")) ∧
    (∀ t : Str, keywordFree CATEGORIES (lowerStr t) = true →
      classify_text t = str ("others")) := by
  refine ⟨fun t => rfl, fun t h1 h2 => ?_,
    fun t h => classifyList_eq_others_of_free _ _ h⟩
  unfold classify_text
  rw [show CATEGORIES = CATEGORIES.take 8 ++ CATEGORIES.drop 8 from
    (List.take_append_drop 8 CATEGORIES).symm]
  rw [classifyList_append_of_free _ _ _ h2]
  rw [show CATEGORIES.drop 8 =
    (str ("invoices"),
      [str ("e-fatura"), str ("ettn"), str ("fatura no"), str ("fatura tarihi"), str ("fatura tipi"),
       str ("mal hizmet toplam tutarı"), str ("fatura"), str ("invoice"), str ("ınvoıce"),
       str ("taşıma irsaliye"), str ("taşıma ırsaliye"), str ("müşteri v.d."),
       str ("müşteri v.d.no."), str ("irsaliye")]) :: CATEGORIES.drop 9 from rfl]
  apply classifyList_cons_of_any
  exact List.any_eq_true.mpr ⟨str ("fatura no"), by decide, h1⟩

/-- C3 amended witness: a text containing fatura no and nothing from the
earlier categories goes to invoices, and a keyword-free text to others. -/
theorem C3_amended_classify_witness :
    classify_text (str ("fatura no")) = str ("invoices") ∧
    classify_text (str ("zzqx")) = str ("others") :=
  ⟨C3_amended_classify.2.1 (str ("fatura no")) (by decide) (by decide),
   C3_amended_classify.2.2 (str ("zzqx")) (by decide)⟩

/-- C9 as stated fails on the code: the legacy and core classifiers are
not duplicates; on the text matrah the legacy table answers vergi_levhası
while the core table answers tax_plate. -/
theorem C9_counterexample :
    legacy_classify_text (str ("matrah")) = str ("vergi_levhası") ∧
    classify_text (str ("matrah")) = str ("tax_plate") ∧
    ¬ legacy_classify_text (str ("matrah")) = classify_text (str ("matrah")) := by
  exact ⟨by decide, by decide, by decide⟩

/-- C9 amended: the two classifiers agree exactly on the shared part of
their tables: for every already-lowercased text that the shared first
fifteen categories classify to something other than others, the legacy and
the core classifier return the same category.  Beyond that shared prefix
(and on text needing lowercasing) they diverge. -/
theorem C9_amended_partial_agreement :
    ∀ t : Str, lowerStr t = t → ¬ classifyList sharedPrefix t = str ("others") →
      legacy_classify_text t = classify_text t := by
  intro t hlow hne
  unfold legacy_classify_text classify_text
  rw [hlow]
  rw [show legacyCategories = sharedPrefix ++ legacyCategories.drop 15 from rfl]
  rw [show CATEGORIES = sharedPrefix ++ CATEGORIES.drop 15 from rfl]
  rw [classifyList_append_of_ne _ _ _ hne, classifyList_append_of_ne _ _ _ hne]

/-- C9 amended witness: on the lowercased text çek, classified as cheque
by the shared prefix, the two classifiers agree. -/
theorem C9_amended_partial_agreement_witness :
    legacy_classify_text (str ("çek")) = classify_text (str ("çek")) :=
  C9_amended_partial_agreement (str ("çek")) (by decide) (by decide)

lemma charToDigit_digitChar (n : Nat) (h : n < 10) : charToDigit (digitChar n) = n := by
  interval_cases n <;> rfl

lemma parseNat_append_digit (l : Str) (c : Char) :
    parseNat (l ++ [c]) = parseNat l * 10 + charToDigit c := by
  unfold parseNat
  rw [List.foldl_append]
  rfl

lemma parseNat_natReprAux (fuel : Nat) :
    ∀ n, n ≤ fuel → parseNat (natReprAux fuel n) = n := by
  induction fuel with
  | zero =>
    intro n hn
    have h0 : n = 0 := by omega
    subst h0
    decide
  | succ fuel ih =>
    intro n hn
    rw [show natReprAux (fuel + 1) n
        = if n < 10 then [digitChar n] else natReprAux fuel (n / 10) ++ [digitChar (n % 10)]
        from rfl]
    by_cases h10 : n < 10
    · rw [if_pos h10]
      show 0 * 10 + charToDigit (digitChar n) = n
      rw [charToDigit_digitChar n h10]
      omega
    · rw [if_neg h10, parseNat_append_digit, ih (n / 10) (by omega),
        charToDigit_digitChar _ (Nat.mod_lt n (by omega))]
      omega

lemma parseNat_natRepr (n : Nat) : parseNat (natRepr n) = n :=
  parseNat_natReprAux n n (Nat.le_refl n)

lemma natRepr_inj (m n : Nat) (h : natRepr m = natRepr n) : m = n := by
  rw [← parseNat_natRepr m, h, parseNat_natRepr]

lemma natRepr_append_cancel (m n : Nat) (t : Str) (h : natRepr m ++ t = natRepr n ++ t) :
    m = n := by
  have hlen : (natRepr m).length = (natRepr n).length := by
    have hl := congrArg List.length h
    simp only [List.length_append] at hl
    omega
  exact natRepr_inj m n (List.append_inj h hlen).1

lemma firstFreeAux_spec (existing : List Str) (cand : Nat → Str) :
    ∀ fuel c, (∃ k, k < fuel ∧ cand (c + k) ∉ existing) →
      ∃ k, firstFreeAux existing cand c fuel = cand (c + k) ∧ cand (c + k) ∉ existing ∧
        ∀ j, j < k → cand (c + j) ∈ existing := by
  intro fuel
  induction fuel with
  | zero =>
    rintro c ⟨k, hk, -⟩
    omega
  | succ fuel ih =>
    rintro c ⟨k, hk, hfree⟩
    by_cases hc : cand c ∈ existing
    · have hk0 : ¬ k = 0 := by
        rintro rfl
        simp only [Nat.add_zero] at hfree
        exact hfree hc
      have hex : ∃ m, m < fuel ∧ cand (c + 1 + m) ∉ existing := by
        refine ⟨k - 1, by omega, ?_⟩
        have he : c + 1 + (k - 1) = c + k := by omega
        rw [he]
        exact hfree
      obtain ⟨m, h1, h2, h3⟩ := ih (c + 1) hex
      refine ⟨m + 1, ?_, ?_, ?_⟩
      · rw [show firstFreeAux existing cand c (fuel + 1)
            = if cand c ∈ existing then firstFreeAux existing cand (c + 1) fuel else cand c
            from rfl, if_pos hc, h1]
        congr 1
        omega
      · have he : c + (m + 1) = c + 1 + m := by omega
        rw [he]
        exact h2
      · intro j hj
        rcases j with - | j
        · simpa using hc
        · have he : c + (j + 1) = c + 1 + j := by omega
          rw [he]
          exact h3 j (by omega)
    · refine ⟨0, ?_, by simpa using hc, by intro j hj; omega⟩
      rw [show firstFreeAux existing cand c (fuel + 1)
          = if cand c ∈ existing then firstFreeAux existing cand (c + 1) fuel else cand c
          from rfl, if_neg hc, Nat.add_zero]

lemma exists_free_index (existing : List Str) (cand : Nat → Str)
    (hinj : ∀ i j, cand i = cand j → i = j) :
    ∃ k, k < existing.length + 1 ∧ cand k ∉ existing := by
  by_contra hall
  push_neg at hall
  have hsub : ∀ x ∈ (List.range (existing.length + 1)).map cand, x ∈ existing := by
    intro x hx
    obtain ⟨i, hi, rfl⟩ := List.mem_map.mp hx
    exact hall i (List.mem_range.mp hi)
  have hnd : ((List.range (existing.length + 1)).map cand).Nodup :=
    List.Nodup.map (fun a b hab => hinj a b hab) (List.nodup_range _)
  have hcard : ((List.range (existing.length + 1)).map cand).toFinset.card
      ≤ existing.toFinset.card := by
    apply Finset.card_le_card
    intro x hx
    rw [List.mem_toFinset] at hx ⊢
    exact hsub x hx
  rw [List.toFinset_card_of_nodup hnd] at hcard
  have h2 : existing.toFinset.card ≤ existing.length := existing.toFinset_card_le
  simp only [List.length_map, List.length_range] at hcard
  omega

lemma genCand_inj (base ext : Str) :
    ∀ i j, genCand base ext i = genCand base ext j → i = j := by
  intro i j h
  rcases i with - | i <;> rcases j with - | j
  · rfl
  · exfalso
    simp only [genCand] at h
    have h2 := List.append_cancel_left h
    injection h2 with h3 h4
    exact absurd h3 (by decide)
  · exfalso
    simp only [genCand] at h
    have h2 := List.append_cancel_left h
    injection h2 with h3 h4
    exact absurd h3 (by decide)
  · simp only [genCand] at h
    have h2 := List.append_cancel_left h
    injection h2 with h3 h4
    have := natRepr_append_cancel _ _ _ h4
    omega

/-- C7: generate_unique_filename returns the first name of the sequence
code_date.ext, code_date(1).ext, code_date(2).ext, ... that is not already
present in the destination folder; in particular the returned name never
collides with an existing one. -/
theorem C7_generate_unique_filename_first_free :
    ∀ (code dateStr ext : Str) (existing : List Str),
      generate_unique_filename code dateStr ext existing ∉ existing ∧
      ∃ k, generate_unique_filename code dateStr ext existing
          = genCand (code ++ ('_' :: dateStr)) ext k ∧
        ∀ j, j < k → genCand (code ++ ('_' :: dateStr)) ext j ∈ existing := by
  intro code dateStr ext existing
  obtain ⟨k, hk, hfree⟩ := exists_free_index existing
    (genCand (code ++ ('_' :: dateStr)) ext) (genCand_inj _ _)
  obtain ⟨m, h1, h2, h3⟩ := firstFreeAux_spec existing
    (genCand (code ++ ('_' :: dateStr)) ext) (existing.length + 1) 0
    ⟨k, hk, by simpa using hfree⟩
  simp only [Nat.zero_add] at h1 h2 h3
  refine ⟨?_, m, ?_, ?_⟩
  · rw [generate_unique_filename, h1]
    exact h2
  · rw [generate_unique_filename, h1]
  · intro j hj
    exact h3 j hj

/-- C7 witness: with one colliding name in the folder, the generated name
is the suffixed one and is absent from the folder. -/
theorem C7_generate_unique_filename_first_free_witness :
    generate_unique_filename (str ("12345678901")) (str ("01012026")) (str ("pdf"))
        [str ("12345678901_01012026.pdf")] ∉ [str ("12345678901_01012026.pdf")] ∧
    generate_unique_filename (str ("12345678901")) (str ("01012026")) (str ("pdf"))
        [str ("12345678901_01012026.pdf")] = str ("12345678901_01012026(1).pdf") :=
  ⟨(C7_generate_unique_filename_first_free (str ("12345678901")) (str ("01012026")) (str ("pdf"))
      [str ("12345678901_01012026.pdf")]).1, by decide⟩

lemma splitext_append (name : Str) : (splitext name).1 ++ (splitext name).2 = name := by
  unfold splitext
  rcases h : splitextIdx name with - | i
  · simp
  · simp [List.take_append_drop]

lemma splitext_length (name : Str) :
    (splitext name).1.length + (splitext name).2.length = name.length := by
  have h := congrArg List.length (splitext_append name)
  simpa using h

lemma moveCand_length_succ (name : Str) (k : Nat) :
    (moveCand name (k + 1)).length
      = (splitext name).1.length + (natRepr (k + 1)).length + 2 + (splitext name).2.length := by
  simp only [moveCand, List.length_append, List.length_cons]
  omega

lemma moveCand_inj (name : Str) : ∀ i j, moveCand name i = moveCand name j → i = j := by
  intro i j h
  rcases i with - | i <;> rcases j with - | j
  · rfl
  · exfalso
    have hlen := congrArg List.length h
    rw [show moveCand name 0 = name from rfl, moveCand_length_succ] at hlen
    have hs := splitext_length name
    omega
  · exfalso
    have hlen := congrArg List.length h
    rw [show moveCand name 0 = name from rfl, moveCand_length_succ] at hlen
    have hs := splitext_length name
    omega
  · simp only [moveCand] at h
    have h2 := List.append_cancel_left h
    injection h2 with h3 h4
    have := natRepr_append_cancel _ _ _ h4
    omega

/-- C8: under the single-writer assumption, move_file_to_category never
overwrites: the chosen destination name is absent from the destination
folder before the move, the move adds exactly that one name to exactly the
chosen category folder and touches no other folder, and the batch records
exactly one outcome per input file. -/
theorem C8_move_never_overwrites :
    (∀ (st : FolderState) (category name : Str),
      ¬ (move_file_to_category st category name).1 ∈ st.contents category ∧
      (move_file_to_category st category name).2.contents category
        = (move_file_to_category st category name).1 :: st.contents category ∧
      (∀ c : Str, ¬ c = category →
        (move_file_to_category st category name).2.contents c = st.contents c)) ∧
    (∀ (env : Env) (st : FolderState) (files : List Str),
      (processFilesInDirectory env st files).1.length = files.length) := by
  constructor
  · intro st category name
    obtain ⟨k, hk, hfree⟩ := exists_free_index (st.contents category) (moveCand name)
      (moveCand_inj name)
    obtain ⟨m, h1, h2, h3⟩ := firstFreeAux_spec (st.contents category) (moveCand name)
      (st.contents category).length.succ 0 ⟨k, hk, by simpa using hfree⟩
    simp only [Nat.zero_add] at h1 h2
    refine ⟨?_, ?_, ?_⟩
    · show ¬ firstFreeAux (st.contents category) (moveCand name) 0
        ((st.contents category).length + 1) ∈ st.contents category
      rw [h1]
      exact h2
    · show (if category = category then _ :: st.contents category else _) = _
      rw [if_pos rfl]
      rfl
    · intro c hc
      show (if c = category then _ else st.contents c) = st.contents c
      rw [if_neg hc]
  · intro env st files
    induction files generalizing st with
    | nil => rfl
    | cons f rest ih =>
      simp only [processFilesInDirectory, List.length_cons]
      rw [ih]

/-- C8 witness: moving a.txt into the invoices folder already holding
a.txt picks the fresh name a(1).txt and leaves the others folder alone. -/
theorem C8_move_never_overwrites_witness :
    ¬ (move_file_to_category demoFolders (str ("invoices")) (str ("a.txt"))).1
        ∈ demoFolders.contents (str ("invoices")) ∧
    (move_file_to_category demoFolders (str ("invoices")) (str ("a.txt"))).2.contents (str ("others"))
        = demoFolders.contents (str ("others")) ∧
    (move_file_to_category demoFolders (str ("invoices")) (str ("a.txt"))).1 = str ("a(1).txt") :=
  ⟨((C8_move_never_overwrites.1 demoFolders (str ("invoices")) (str ("a.txt"))).1),
   ((C8_move_never_overwrites.1 demoFolders (str ("invoices")) (str ("a.txt"))).2.2
      (str ("others")) (by decide)),
   by decide⟩

lemma tryAngle_some_ne_others (env : Env) (img angle : Nat) (r : Str × Option Str)
    (h : tryAngle env img angle = some r) : ¬ r.1 = str ("others") := by
  unfold tryAngle at h
  rcases h1 : env.rotateImage img angle with - | rotated
  · simp only [h1] at h
    exact Option.noConfusion h
  · simp only [h1] at h
    rcases h2 : env.extractTextFromImage rotated with - | text
    · simp only [h2] at h
      exact Option.noConfusion h
    · simp only [h2] at h
      by_cases h3 : hasContent text = true
      · rw [if_pos h3] at h
        by_cases h4 : ¬ classify_text text = str ("others")
        · rw [if_pos h4] at h
          injection h with h5
          subst h5
          exact h4
        · rw [if_neg h4] at h
          exact Option.noConfusion h
      · rw [if_neg h3] at h
        exact Option.noConfusion h

lemma tryRotAux_others (env : Env) (img : Nat) :
    ∀ angles, (tryRotAux env img angles).1 = str ("others") →
      tryRotAux env img angles = (str ("others"), none) := by
  intro angles
  induction angles with
  | nil => intro h; rfl
  | cons a rest ih =>
    intro h
    unfold tryRotAux at h ⊢
    rcases h1 : tryAngle env img a with - | r
    · simp only [h1] at h ⊢
      exact ih h
    · simp only [h1] at h ⊢
      exact absurd h (tryAngle_some_ne_others env img a r h1)

/-- C1 amended: whenever an orchestration pass ends with category others,
the identifier component of process_document is none: the candidate
identifiers found on unsuccessful attempts are discarded, not carried to
the result. -/
theorem C1_amended_exhausted_pass_returns_none :
    ∀ (env : Env) (filePath : Str),
      (processDocument env filePath).1 = str ("others") →
      processDocument env filePath = (str ("others"), none) := by
  intro env p h
  unfold processDocument at h ⊢
  rcases h1 : env.loadImage p with - | img
  · simp only [h1]
  · simp only [h1] at h ⊢
    by_cases h2 : (tryOcrWithRotations env img).1 = str ("others")
    · rw [if_pos h2] at h ⊢
      unfold tryOcrWithUpscaling at h ⊢
      rcases h3 : env.upscaleImage img with - | up
      · simp only [h3]
      · simp only [h3] at h ⊢
        exact tryRotAux_others env up [0, 90, 180, 270] h
    · rw [if_neg h2] at h
      exact absurd h h2

/-- C1 amended witness: an environment whose eight attempts all classify
as others yields exactly (others, none). -/
theorem C1_amended_exhausted_pass_returns_none_witness :
    processDocument cexEnvC1 (str ("scan2.png")) = (str ("others"), none) :=
  C1_amended_exhausted_pass_returns_none cexEnvC1 (str ("scan2.png")) (by decide)

/-- C1 as stated fails on the code: with OCR reading, on every attempt, a
text that contains the valid TC 10000000146 and matches no keyword, the
pass exhausts all rotations and the upscale escalation, and
process_document returns a null identifier even though the text of every
attempt contained a valid identifier candidate. -/
theorem C1_counterexample :
    processDocument cexEnvC1 (str ("scan.png")) = (str ("others"), none) ∧
    extract_identifier (str ("10000000146")) = some (str ("10000000146")) := by
  exact ⟨by decide, by decide⟩

/-- C2 amended: an image decode failure is caught inside process_document,
so the file is recorded under others with a null identifier, not under
error_files; the error_files branch of process_single_file is reached only
when the file move itself raises. -/
theorem C2_amended_decode_failure_goes_to_others :
    ∀ (env : Env) (st : FolderState) (filePath : Str),
      env.loadImage filePath = none →
      (processSingleFile env st filePath).1.1 = str ("others") := by
  intro env st p h
  simp [processSingleFile, processDocument, h]

/-- C2 amended witness: a decode-failing file lands in others. -/
theorem C2_amended_decode_failure_goes_to_others_witness :
    (processSingleFile cexEnvC2 emptyFolders (str ("uploads/another.png"))).1.1
      = str ("others") :=
  C2_amended_decode_failure_goes_to_others cexEnvC2 emptyFolders
    (str ("uploads/another.png")) (by decide)

/-- C2 as stated fails on the code: a file whose decoding raises is
recorded under others, not under error_files; the decode exception never
escapes process_document. -/
theorem C2_counterexample :
    (processSingleFile cexEnvC2 emptyFolders (str ("uploads/broken.png"))).1.1
      = str ("others") ∧
    ¬ (processSingleFile cexEnvC2 emptyFolders (str ("uploads/broken.png"))).1.1
      = str ("error_files") := by
  exact ⟨by decide, by decide⟩

lemma nfkc_append (a b : Str) : nfkc (a ++ b) = nfkc a ++ nfkc b := by
  induction a with
  | nil => rfl
  | cons c rest ih =>
    show nfkcChar c ++ nfkc (rest ++ b) = (nfkcChar c ++ nfkc rest) ++ nfkc b
    rw [ih, List.append_assoc]

lemma nfkcChar_fixed (c : Char) : nfkc (nfkcChar c) = nfkcChar c := by
  by_cases h : c = 'ﬁ'
  · subst h
    decide
  · simp [nfkcChar, h, nfkc]

lemma nfkc_idem (s : Str) : nfkc (nfkc s) = nfkc s := by
  induction s with
  | nil => rfl
  | cons c rest ih =>
    show nfkc (nfkcChar c ++ nfkc rest) = nfkcChar c ++ nfkc rest
    rw [nfkc_append, ih, nfkcChar_fixed]

/-- C10: the batch coordinator computes the normalized file name and then
discards it, so a file whose name is not normalization-invariant is moved
and recorded under its raw base name, while the specification requires the
normalized one; the modelled normalization itself is idempotent.  The file
name here contains the fi compatibility ligature, which NFKC rewrites. -/
theorem C10_normalized_name_computed_but_unused :
    (processorProcessSingleFile cexEnvC10 emptyFolders (str ("uploads/ﬁle.pdf"))).1.2
        = str ("ﬁle.pdf") ∧
    nfkc (str ("ﬁle.pdf")) = str ("file.pdf") ∧
    ¬ (str ("ﬁle.pdf") : Str) = str ("file.pdf") ∧
    (∀ s : Str, nfkc (nfkc s) = nfkc s) :=
  ⟨by decide, by decide, by decide, nfkc_idem⟩

/-- C4 witness: the specification predicate holds at 10000000146 and
transfers to acceptance through the equivalence. -/
theorem C4_is_valid_tc_matches_spec_witness :
    is_valid_tc (str ("10000000146")) = true :=
  (C4_is_valid_tc_matches_spec.1 (str ("10000000146"))).mpr (by unfold specValidTC; decide)

/-- C5 witness: the specification predicate holds at 1111111115 and
transfers to acceptance through the equivalence. -/
theorem C5_is_valid_vkn_matches_spec_witness :
    is_valid_vkn (str ("1111111115")) = true :=
  (C5_is_valid_vkn_matches_spec.1 (str ("1111111115"))).mpr (by unfold specValidVKN; decide)
